import Mathlib

/-!
Verification of the `scripts/verify.py` end-to-end browser script.

The script is straight-line Python driving a browser-automation
collaborator (Playwright).  We embed it shallowly: each collaborator
primitive the script invokes becomes a constructor of `PageCall` (for
calls made through the page handle inside `verify_sprite_change`) or
`MainCall` (for the browser-level calls of the `__main__` block).  The
collaborator itself is external to the repository, so it is abstracted
as an oracle `PageCall → Option PwError`: `none` means the call
completed normally, `some e` means it raised exception `e`.  Execution
is sequential and aborts at the first raising call, exactly as Python
does.  The only file-system effect, the screenshot write, is tracked by
threading a map `String → Option String` (path to file contents); a
call that raises performs no effect.
-/

/-- Exceptions the collaborator can raise: a visibility assertion that
timed out, a navigation failure, or anything else. -/
inductive PwError
  | timeoutError
  | navigationFailure
  | other (msg : String)
  deriving DecidableEq

/-- A locator, as built lazily by the script: `page.get_by_role(role, name)`
or `page.locator(tag).first`. -/
inductive Locator
  | byRole (role : String) (name : String)
  | tagFirst (tag : String)
  deriving DecidableEq

/-- page.get_by_role("button", name="Start") -/
def start_button : Locator := Locator.byRole "button" "Start"

/-- page.locator("canvas").first -/
def canvas : Locator := Locator.tagFirst "canvas"

/-- page.get_by_role("button", name="Airport") -/
def airport_tool : Locator := Locator.byRole "button" "Airport"

/-- The collaborator calls `verify_sprite_change` issues through the
page handle.  `expectVisible loc t` is `expect(loc).to_be_visible(...)`
with explicit timeout `t` in milliseconds (`none` = collaborator
default); `clickAt loc x y` is `loc.click(position=...)`. -/
inductive PageCall
  | goto (url : String)
  | expectVisible (loc : Locator) (timeout : Option Nat)
  | click (loc : Locator)
  | clickAt (loc : Locator) (x : Nat) (y : Nat)
  | screenshot (path : String)
  deriving DecidableEq

/-- The collaborator's response to each call: `none` = the call
completed, `some e` = the call raised `e`. -/
def Oracle : Type := PageCall → Option PwError

/-- File-system effect of one completed call: `page.screenshot(path=p)`
writes the captured image `shot` at `p`, overwriting whatever was
there; no other call in the script's repertoire touches the file
system. -/
def applyCall (shot : String) (fs : String → Option String) :
    PageCall → (String → Option String)
  | PageCall.screenshot p => fun q => if q = p then some shot else fs q
  | _ => fs

/-- Sequential execution of a list of collaborator calls, as Python
runs straight-line statements: issue the head call; if it raises, stop
(the raising call has no effect); otherwise apply its effect and
continue.  Returns the calls actually issued, the final file system and
the propagated exception, if any. -/
def runSeqFs (o : Oracle) (shot : String) :
    List PageCall → (String → Option String) →
    List PageCall × (String → Option String) × Option PwError
  | [], fs => ([], fs, none)
  | c :: cs, fs =>
    match o c with
    | some e => ([c], fs, some e)
    | none =>
      let r := runSeqFs o shot cs (applyCall shot fs c)
      (c :: r.1, r.2)

/-- The fixed call sequence of `verify_sprite_change`, line by line:
goto; expect(start_button).to_be_visible(timeout=30000);
start_button.click(); expect(canvas).to_be_visible(timeout=30000);
expect(airport_tool).to_be_visible(); airport_tool.click();
canvas.click(position=\x7b"x": 500, "y": 300\x7d);
page.screenshot(path="/home/jules/verification/verification.png"). -/
def verifyCalls : List PageCall :=
  [ PageCall.goto "http://localhost:3000"
  , PageCall.expectVisible start_button (some 30000)
  , PageCall.click start_button
  , PageCall.expectVisible canvas (some 30000)
  , PageCall.expectVisible airport_tool none
  , PageCall.click airport_tool
  , PageCall.clickAt canvas 500 300
  , PageCall.screenshot "/home/jules/verification/verification.png" ]

/-- `verify_sprite_change(page)`: run the fixed call sequence against
the collaborator `o`, starting from file system `fs`; `shot` is the
image the collaborator would capture. -/
def verify_sprite_change (o : Oracle) (shot : String)
    (fs : String → Option String) :
    List PageCall × (String → Option String) × Option PwError :=
  runSeqFs o shot verifyCalls fs

/-- Browser-level collaborator calls of the `__main__` block. -/
inductive MainCall
  | launch (browserType : String) (headless : Bool)
  | newPage
  | pageCall (c : PageCall)
  | close
  deriving DecidableEq

/-- The `__main__` block: `browser = p.chromium.launch(headless=True)`;
`page = browser.new_page()`; `try: verify_sprite_change(page) finally:
browser.close()`.  If launch or new_page raises, the try block is never
entered and close is not called; otherwise close runs unconditionally,
and per Python semantics an exception raised by close itself replaces
the one from the try block. -/
def main_run (o : MainCall → Option PwError) (shot : String)
    (fs : String → Option String) :
    List MainCall × (String → Option String) × Option PwError :=
  match o (MainCall.launch "chromium" true) with
  | some e => ([MainCall.launch "chromium" true], fs, some e)
  | none =>
    match o MainCall.newPage with
    | some e => ([MainCall.launch "chromium" true, MainCall.newPage], fs, some e)
    | none =>
      let v := verify_sprite_change (fun c => o (MainCall.pageCall c)) shot fs
      ( MainCall.launch "chromium" true :: MainCall.newPage ::
          (v.1.map MainCall.pageCall ++ [MainCall.close]),
        v.2.1,
        match o MainCall.close with
        | some e2 => some e2
        | none => v.2.2 )

/-- Process exit status: 0 when no exception reaches the boundary,
non-zero (Python prints a traceback and exits 1) otherwise. -/
def exitCode : Option PwError → Nat
  | none => 0
  | some _ => 1

/-- An always-succeeding collaborator (used for concrete runs). -/
def oracleOk : Oracle := fun _ => none

/-- A collaborator on which the Start-button visibility wait times
out and every other call succeeds. -/
def oracleStartTimeout : Oracle := fun c =>
  if c = PageCall.expectVisible start_button (some 30000) then
    some PwError.timeoutError
  else none

/-- A collaborator on which the canvas visibility wait times out and
every other call succeeds. -/
def oracleCanvasTimeout : Oracle := fun c =>
  if c = PageCall.expectVisible canvas (some 30000) then
    some PwError.timeoutError
  else none

/-- A collaborator on which navigation raises and every other call
succeeds. -/
def oracleNavFail : Oracle := fun c =>
  match c with
  | PageCall.goto _ => some PwError.navigationFailure
  | _ => none

/-- An always-succeeding browser-level collaborator. -/
def moracleOk : MainCall → Option PwError := fun _ => none

/-- A browser-level collaborator on which navigation fails and all
other calls succeed. -/
def moracleNavFail : MainCall → Option PwError := fun c =>
  match c with
  | MainCall.pageCall (PageCall.goto _) => some PwError.navigationFailure
  | _ => none

/-- An empty file system. -/
def fs0 : String → Option String := fun _ => none

/-- A file system already holding a previous screenshot. -/
def fsPrev : String → Option String := fun q =>
  if q = "/home/jules/verification/verification.png" then some "old" else none

/-- Calls of the script that carry an explicit visibility timeout. -/
def hasExplicitTimeout : PageCall → Bool
  | PageCall.expectVisible _ (some _) => true
  | _ => false

/-- Calls of the script that are position clicks. -/
def isPositionClick : PageCall → Bool
  | PageCall.clickAt _ _ _ => true
  | _ => false

/-- When every call in the list completes, the executor issues all of
them in order, applies their effects left to right, and propagates no
exception. -/
theorem runSeqFs_ok (o : Oracle) (shot : String) :
    ∀ (cs : List PageCall) (fs : String → Option String),
    (∀ c ∈ cs, o c = none) →
    runSeqFs o shot cs fs = (cs, List.foldl (applyCall shot) fs cs, none) := by
  intro cs
  induction cs with
  | nil => intro fs _; rfl
  | cons c cs ih =>
    intro fs h
    have hc : o c = none := h c (List.mem_cons_self c cs)
    have hcs : ∀ d ∈ cs, o d = none := fun d hd => h d (List.mem_cons_of_mem c hd)
    simp [runSeqFs, hc, ih (applyCall shot fs c) hcs]

/-- The issued calls are always an initial segment of the program's
call list: no call is reordered, repeated or invented. -/
theorem runSeqFs_take (o : Oracle) (shot : String) :
    ∀ (cs : List PageCall) (fs : String → Option String),
    ∃ n, (runSeqFs o shot cs fs).1 = cs.take n := by
  intro cs
  induction cs with
  | nil => intro fs; exact ⟨0, rfl⟩
  | cons c cs ih =>
    intro fs
    cases hc : o c with
    | some e => exact ⟨1, by simp [runSeqFs, hc]⟩
    | none =>
      obtain ⟨n, hn⟩ := ih (applyCall shot fs c)
      exact ⟨n + 1, by simp [runSeqFs, hc, hn]⟩

/-- If every call except possibly the last one is effect-free, then a
run that propagates an exception leaves the file system untouched. -/
theorem runSeqFs_err_fs (o : Oracle) (shot : String) :
    ∀ (cs : List PageCall) (fs : String → Option String) (e : PwError),
    (∀ c ∈ cs.dropLast, ∀ g : String → Option String, applyCall shot g c = g) →
    (runSeqFs o shot cs fs).2.2 = some e →
    (runSeqFs o shot cs fs).2.1 = fs := by
  intro cs
  induction cs with
  | nil => intro fs e _ herr; simp [runSeqFs] at herr
  | cons c cs ih =>
    intro fs e hfree herr
    cases hc : o c with
    | some e2 => simp [runSeqFs, hc]
    | none =>
      cases cs with
      | nil => simp [runSeqFs, hc] at herr
      | cons d ds =>
        have hcfree : ∀ g : String → Option String, applyCall shot g c = g :=
          hfree c (by simp [List.dropLast])
        have hrest : ∀ x ∈ (d :: ds).dropLast, ∀ g : String → Option String,
            applyCall shot g x = g := by
          intro x hx g
          exact hfree x (by simp [List.dropLast] at hx ⊢; tauto) g
        simp [runSeqFs, hc] at herr ⊢
        rw [hcfree fs] at herr ⊢
        exact ih fs e hrest herr

/-- C1: on the success path `verify_sprite_change` issues exactly, in
this order, with no step skipped or repeated: navigate to
http://localhost:3000; wait for visibility of the "Start" button and
click it; wait for visibility of the first canvas; wait for visibility
of the "Airport" button and click it; click the canvas; capture a
screenshot — and against any collaborator whatsoever the issued calls
are an initial segment of that fixed list (no branching, no loops). -/
theorem C1_linear_sequence (o : Oracle) (shot : String)
    (fs : String → Option String) :
    ((∀ c ∈ verifyCalls, o c = none) →
      (verify_sprite_change o shot fs).1 =
        [ PageCall.goto "http://localhost:3000"
        , PageCall.expectVisible (Locator.byRole "button" "Start") (some 30000)
        , PageCall.click (Locator.byRole "button" "Start")
        , PageCall.expectVisible (Locator.tagFirst "canvas") (some 30000)
        , PageCall.expectVisible (Locator.byRole "button" "Airport") none
        , PageCall.click (Locator.byRole "button" "Airport")
        , PageCall.clickAt (Locator.tagFirst "canvas") 500 300
        , PageCall.screenshot "/home/jules/verification/verification.png" ] ∧
      (verify_sprite_change o shot fs).2.2 = none) ∧
    ∃ n, (verify_sprite_change o shot fs).1 = verifyCalls.take n := by
  constructor
  · intro h
    rw [verify_sprite_change, runSeqFs_ok o shot verifyCalls fs h]
    exact ⟨rfl, rfl⟩
  · exact runSeqFs_take o shot verifyCalls fs

/-- Witness for C1: a run against the all-succeeding collaborator. -/
theorem C1_linear_sequence_witness :
    (verify_sprite_change oracleOk "img" fs0).1 =
      [ PageCall.goto "http://localhost:3000"
      , PageCall.expectVisible (Locator.byRole "button" "Start") (some 30000)
      , PageCall.click (Locator.byRole "button" "Start")
      , PageCall.expectVisible (Locator.tagFirst "canvas") (some 30000)
      , PageCall.expectVisible (Locator.byRole "button" "Airport") none
      , PageCall.click (Locator.byRole "button" "Airport")
      , PageCall.clickAt (Locator.tagFirst "canvas") 500 300
      , PageCall.screenshot "/home/jules/verification/verification.png" ] ∧
    (verify_sprite_change oracleOk "img" fs0).2.2 = none :=
  (C1_linear_sequence oracleOk "img" fs0).1 (fun _ _ => rfl)

/-- C2: when navigation succeeds but the Start-button visibility wait
raises a timeout, the run stops right there — the error propagates,
the file system is untouched (no screenshot) and no later call is
issued; likewise when the canvas visibility wait after the Start click
raises a timeout. -/
theorem C2_timeout_aborts (o : Oracle) (shot : String)
    (fs : String → Option String) :
    (o (PageCall.goto "http://localhost:3000") = none →
     o (PageCall.expectVisible start_button (some 30000)) =
        some PwError.timeoutError →
     verify_sprite_change o shot fs =
       ([ PageCall.goto "http://localhost:3000"
        , PageCall.expectVisible start_button (some 30000) ],
        fs, some PwError.timeoutError)) ∧
    (o (PageCall.goto "http://localhost:3000") = none →
     o (PageCall.expectVisible start_button (some 30000)) = none →
     o (PageCall.click start_button) = none →
     o (PageCall.expectVisible canvas (some 30000)) =
        some PwError.timeoutError →
     verify_sprite_change o shot fs =
       ([ PageCall.goto "http://localhost:3000"
        , PageCall.expectVisible start_button (some 30000)
        , PageCall.click start_button
        , PageCall.expectVisible canvas (some 30000) ],
        fs, some PwError.timeoutError)) := by
  constructor
  · intro h1 h2
    simp [verify_sprite_change, verifyCalls, runSeqFs, applyCall, h1, h2]
  · intro h1 h2 h3 h4
    simp [verify_sprite_change, verifyCalls, runSeqFs, applyCall, h1, h2, h3, h4]

/-- Witness for C2: concrete collaborators timing out on the Start
button and on the canvas, starting from a file system that already
holds a previous screenshot, which stays as it was. -/
theorem C2_timeout_aborts_witness :
    verify_sprite_change oracleStartTimeout "img" fsPrev =
      ([ PageCall.goto "http://localhost:3000"
       , PageCall.expectVisible start_button (some 30000) ],
       fsPrev, some PwError.timeoutError) ∧
    verify_sprite_change oracleCanvasTimeout "img" fsPrev =
      ([ PageCall.goto "http://localhost:3000"
       , PageCall.expectVisible start_button (some 30000)
       , PageCall.click start_button
       , PageCall.expectVisible canvas (some 30000) ],
       fsPrev, some PwError.timeoutError) :=
  ⟨(C2_timeout_aborts oracleStartTimeout "img" fsPrev).1 (by decide) (by decide),
   (C2_timeout_aborts oracleCanvasTimeout "img" fsPrev).2 (by decide) (by decide)
     (by decide) (by decide)⟩

/-- C3: the final call of the sequence is the screenshot, taken at the
page level and persisted to the fixed absolute path
/home/jules/verification/verification.png (a .png file); on a
successful run the captured image ends up at exactly that path in the
file system, whatever was there before — overwrite, no versioning. -/
theorem C3_screenshot_write (o : Oracle) (shot : String)
    (fs : String → Option String) :
    ((∀ c ∈ verifyCalls, o c = none) →
      (verify_sprite_change o shot fs).2.1
        "/home/jules/verification/verification.png" = some shot) ∧
    verifyCalls.getLast? =
      some (PageCall.screenshot "/home/jules/verification/verification.png") ∧
    "/home/jules/verification/verification" ++ ".png" =
      "/home/jules/verification/verification.png" ∧
    "/" ++ "home/jules/verification/verification.png" =
      "/home/jules/verification/verification.png" := by
  refine ⟨?_, rfl, rfl, rfl⟩
  intro h
  rw [verify_sprite_change, runSeqFs_ok o shot verifyCalls fs h]
  simp [verifyCalls, applyCall]

/-- Witness for C3: a successful run starting from a file system that
already holds an old screenshot; the new image overwrites it. -/
theorem C3_screenshot_write_witness :
    (verify_sprite_change oracleOk "img" fsPrev).2.1
      "/home/jules/verification/verification.png" = some "img" :=
  (C3_screenshot_write oracleOk "img" fsPrev).1 (fun _ _ => rfl)

/-- C8: a failing run performs no file-system write at all — whenever
`verify_sprite_change` propagates an exception the final file system
equals the initial one (so a screenshot left by an earlier successful
run is untouched) — and the screenshot is the only call of the
sequence with a file-system effect, every earlier call being
effect-free. -/
theorem C8_no_write_on_failure (o : Oracle) (shot : String)
    (fs : String → Option String) (e : PwError) :
    ((verify_sprite_change o shot fs).2.2 = some e →
      (verify_sprite_change o shot fs).2.1 = fs) ∧
    (∀ c ∈ verifyCalls.dropLast, ∀ g : String → Option String,
      applyCall shot g c = g) := by
  have hfree : ∀ c ∈ verifyCalls.dropLast, ∀ g : String → Option String,
      applyCall shot g c = g := by
    intro c hc g
    simp [verifyCalls, List.dropLast] at hc
    rcases hc with rfl | rfl | rfl | rfl | rfl | rfl | rfl <;> rfl
  exact ⟨fun herr => runSeqFs_err_fs o shot verifyCalls fs e hfree herr, hfree⟩

/-- Witness for C8: a run failing at navigation leaves the previous
screenshot exactly where it was. -/
theorem C8_no_write_on_failure_witness :
    (verify_sprite_change oracleNavFail "img" fsPrev).2.1 = fsPrev ∧
    (verify_sprite_change oracleNavFail "img" fsPrev).2.2 =
      some PwError.navigationFailure :=
  ⟨(C8_no_write_on_failure oracleNavFail "img" fsPrev
      PwError.navigationFailure).1 rfl, rfl⟩

/-- C9: `verify_sprite_change` is deterministic in its environment —
two collaborators that give identical responses to identical calls
yield identical runs (same issued calls with the same arguments, same
file system, same outcome) — and the calls issued depend on nothing but
the collaborator: against any oracle they form an initial segment of
the one fixed argument list. -/
theorem C9_deterministic (o₁ o₂ : Oracle) (shot : String)
    (fs : String → Option String) :
    ((∀ c, o₁ c = o₂ c) →
      verify_sprite_change o₁ shot fs = verify_sprite_change o₂ shot fs) ∧
    ∃ n, (verify_sprite_change o₁ shot fs).1 = verifyCalls.take n := by
  constructor
  · intro h
    rw [show o₁ = o₂ from funext h]
  · exact runSeqFs_take o₁ shot verifyCalls fs

/-- Witness for C9: two syntactically different but pointwise equal
collaborators give equal runs. -/
theorem C9_deterministic_witness :
    verify_sprite_change oracleOk "img" fs0 =
      verify_sprite_change (fun c => oracleOk c) "img" fs0 :=
  (C9_deterministic oracleOk (fun c => oracleOk c) "img" fs0).1 (fun _ => rfl)

/-- C4: in the `__main__` block, once the browser is launched and the
page created, `browser.close()` appears in the issued calls on every
exit path — whether `verify_sprite_change` completes or raises, since
the oracle below is unconstrained on all page-level calls. -/
theorem C4_close_always (o : MainCall → Option PwError) (shot : String)
    (fs : String → Option String) :
    o (MainCall.launch "chromium" true) = none →
    o MainCall.newPage = none →
    MainCall.close ∈ (main_run o shot fs).1 := by
  intro h1 h2
  simp [main_run, h1, h2]

/-- Witness for C4: close is issued both on a fully successful run and
on a run whose navigation raises. -/
theorem C4_close_always_witness :
    MainCall.close ∈ (main_run moracleOk "img" fs0).1 ∧
    MainCall.close ∈ (main_run moracleNavFail "img" fs0).1 :=
  ⟨C4_close_always moracleOk "img" fs0 rfl rfl,
   C4_close_always moracleNavFail "img" fs0 rfl rfl⟩

/-- C5: no exception is caught anywhere in the script — provided the
cleanup `browser.close()` itself completes, the exception reaching the
process boundary is exactly the one produced by the
`verify_sprite_change` body (`none` on success), and the process exit
status is 0 precisely when no exception reached the boundary, non-zero
otherwise. -/
theorem C5_errors_propagate (o : MainCall → Option PwError) (shot : String)
    (fs : String → Option String) :
    o (MainCall.launch "chromium" true) = none →
    o MainCall.newPage = none →
    o MainCall.close = none →
    (main_run o shot fs).2.2 =
      (verify_sprite_change (fun c => o (MainCall.pageCall c)) shot fs).2.2 ∧
    (exitCode (main_run o shot fs).2.2 = 0 ↔ (main_run o shot fs).2.2 = none) := by
  intro h1 h2 h3
  constructor
  · simp [main_run, h1, h2, h3]
  · cases h : (main_run o shot fs).2.2 <;> simp [exitCode, h]

/-- Witness for C5: on a run whose navigation raises, the navigation
failure itself reaches the boundary and the exit status is non-zero. -/
theorem C5_errors_propagate_witness :
    ((main_run moracleNavFail "img" fs0).2.2 =
      (verify_sprite_change (fun c => moracleNavFail (MainCall.pageCall c))
        "img" fs0).2.2) ∧
    (exitCode (main_run moracleNavFail "img" fs0).2.2 = 0 ↔
      (main_run moracleNavFail "img" fs0).2.2 = none) :=
  C5_errors_propagate moracleNavFail "img" fs0 rfl rfl rfl

/-- C6: exactly two calls of the sequence carry an explicit visibility
timeout — the Start-button wait and the canvas wait, both at 30,000 ms
— while the Airport-button visibility wait is issued with the
collaborator's default timeout. -/
theorem C6_timeouts :
    verifyCalls.filter hasExplicitTimeout =
      [ PageCall.expectVisible start_button (some 30000)
      , PageCall.expectVisible canvas (some 30000) ] ∧
    PageCall.expectVisible airport_tool none ∈ verifyCalls := by
  exact ⟨rfl, by decide⟩

/-- C7: the only position click of the sequence targets the first
element of tag "canvas" at the fixed offsets x=500, y=300, and it is
the seventh call, right between the Airport click and the
screenshot. -/
theorem C7_canvas_click :
    verifyCalls.filter isPositionClick =
      [ PageCall.clickAt (Locator.tagFirst "canvas") 500 300 ] ∧
    verifyCalls[6]? = some (PageCall.clickAt canvas 500 300) := by
  exact ⟨rfl, rfl⟩

/-- C10: the `__main__` block always launches Chromium headless: on any
oracle the first issued call is `launch "chromium" (headless := true)`,
and every launch call in the trace has browser type "chromium" and
headless set to true — no code path produces a headed browser. -/
theorem C10_headless (o : MainCall → Option PwError) (shot : String)
    (fs : String → Option String) :
    (main_run o shot fs).1.head? = some (MainCall.launch "chromium" true) ∧
    ∀ s b, MainCall.launch s b ∈ (main_run o shot fs).1 →
      s = "chromium" ∧ b = true := by
  cases h1 : o (MainCall.launch "chromium" true) with
  | some e =>
    refine ⟨by simp [main_run, h1], ?_⟩
    intro s b hm
    simp [main_run, h1] at hm
    exact ⟨hm.1, hm.2⟩
  | none =>
    cases h2 : o MainCall.newPage with
    | some e =>
      refine ⟨by simp [main_run, h1, h2], ?_⟩
      intro s b hm
      simp [main_run, h1, h2] at hm
      exact ⟨hm.1, hm.2⟩
    | none =>
      refine ⟨by simp [main_run, h1, h2], ?_⟩
      intro s b hm
      simp [main_run, h1, h2] at hm
      exact ⟨hm.1, hm.2⟩

/-- Witness for C10: the launch call found in a concrete trace is
Chromium with headless true. -/
theorem C10_headless_witness :
    (main_run moracleOk "img" fs0).1.head? =
      some (MainCall.launch "chromium" true) ∧
    ("chromium" = "chromium" ∧ true = true) :=
  ⟨(C10_headless moracleOk "img" fs0).1,
   (C10_headless moracleOk "img" fs0).2 "chromium" true (by decide)⟩
